import Mathlib

set_option autoImplicit false

namespace MusicKitKat

/-! Shallow embedding of the MusicKitKat Go SDK core: the errors package
(APIError classification and message formatting), the auth package
(developer-token issuance and expiry introspection, the in-memory token
cache, the user-token manager's cache-through read), the client package
(request-header construction in NewRequest), and the search service's
storefront handling.  Machine integers (Go int / int64 unix seconds) are
modelled as Int; Go maps with string keys are modelled as association
lists with set-replace update. -/

/-! Error classification (errors package). -/

/-- ErrorType constant: the Go errors package defines ErrorType as a string
type; ErrorTypeAuthentication is the value "authentication". -/
def ErrorTypeAuthentication : String := "authentication"

/-- ErrorType constant "invalid_request". -/
def ErrorTypeInvalidRequest : String := "invalid_request"

/-- ErrorType constant "rate_limit". -/
def ErrorTypeRateLimit : String := "rate_limit"

/-- ErrorType constant "server". -/
def ErrorTypeServer : String := "server"

/-- ErrorType constant "unknown". -/
def ErrorTypeUnknown : String := "unknown"

/-- SubError mirrors the anonymous struct elements of APIError.Errors in the
Go source: fields ID, Title, Detail, Status, Code, all strings. -/
structure SubError where
  ID : String
  Title : String
  Detail : String
  Status : String
  Code : String
  deriving DecidableEq, Repr

/-- APIError mirrors the Go struct: StatusCode (Go int, modelled as Int),
the Type field (a string in Go, renamed ErrType because Type is a Lean
keyword), Message, and the ordered sub-error list. -/
structure APIError where
  StatusCode : Int
  ErrType : String
  Message : String
  Errors : List SubError
  deriving DecidableEq, Repr

/-- APIError.Error translates the Go Error method: with no sub-errors the
message is "API error (status code: N)"; otherwise the Go code joins the
"Title: Detail" strings with "; " and prepends "API error (status code: N): ". -/
def APIError.Error (e : APIError) : String :=
  if e.Errors = [] then
    "API error (status code: " ++ toString e.StatusCode ++ ")"
  else
    "API error (status code: " ++ toString e.StatusCode ++ "): " ++
      String.intercalate "; " (e.Errors.map (fun err => err.Title ++ ": " ++ err.Detail))

/-- APIError.GetType translates the Go switch statement in source order:
the 401/403 case, then the generic 400..499 case, then the 429 case, then
the 500-and-above case, then the default. -/
def APIError.GetType (e : APIError) : String :=
  if e.StatusCode = 401 ∨ e.StatusCode = 403 then ErrorTypeAuthentication
  else if 400 ≤ e.StatusCode ∧ e.StatusCode < 500 then ErrorTypeInvalidRequest
  else if e.StatusCode = 429 then ErrorTypeRateLimit
  else if 500 ≤ e.StatusCode then ErrorTypeServer
  else ErrorTypeUnknown

/-- C1: the claim says GetType on status 429 returns the RateLimit kind, the
429 rule taking precedence over the generic 4xx rule.  In the code the
generic 4xx case is listed before the 429 case, so the 429 case is
unreachable: GetType on a 429 error evaluates to invalid_request, not
rate_limit.  This theorem records the code's actual behaviour at the
failing input. -/
theorem getType_429_evaluates_to_invalid_request :
    APIError.GetType { StatusCode := 429, ErrType := "", Message := "", Errors := [] } =
      ErrorTypeInvalidRequest ∧
    APIError.GetType { StatusCode := 429, ErrType := "", Message := "", Errors := [] } ≠
      ErrorTypeRateLimit := by
  refine ⟨rfl, ?_⟩
  decide

/-- C3: for every APIError with status in [400,499] outside 401, 403 and 429
GetType returns invalid_request, and for status 401 or 403 it returns
authentication, regardless of the other fields. -/
theorem getType_4xx_classification (e : APIError) :
    (400 ≤ e.StatusCode → e.StatusCode ≤ 499 → e.StatusCode ≠ 401 → e.StatusCode ≠ 403 →
      e.StatusCode ≠ 429 → e.GetType = ErrorTypeInvalidRequest) ∧
    (e.StatusCode = 401 ∨ e.StatusCode = 403 → e.GetType = ErrorTypeAuthentication) := by
  constructor
  · intro h1 h2 h3 h4 _
    unfold APIError.GetType
    rw [if_neg (by omega), if_pos (by omega)]
  · intro h
    unfold APIError.GetType
    rw [if_pos h]

/-- Witness for C3 at concrete status codes 404 and 401. -/
theorem getType_4xx_classification_spot :
    APIError.GetType { StatusCode := 404, ErrType := "", Message := "", Errors := [] } =
      ErrorTypeInvalidRequest ∧
    APIError.GetType { StatusCode := 401, ErrType := "", Message := "", Errors := [] } =
      ErrorTypeAuthentication :=
  ⟨(getType_4xx_classification _).1 (by decide) (by decide) (by decide) (by decide) (by decide),
   (getType_4xx_classification _).2 (Or.inl rfl)⟩

/-- C4 counterexample: the claim says every status outside [400,599],
including 600 and above, classifies as unknown; the code's server case has
no upper bound, so status 600 classifies as server, not unknown. -/
theorem getType_600_is_server_not_unknown :
    APIError.GetType { StatusCode := 600, ErrType := "", Message := "", Errors := [] } =
      ErrorTypeServer ∧
    APIError.GetType { StatusCode := 600, ErrType := "", Message := "", Errors := [] } ≠
      ErrorTypeUnknown := by
  refine ⟨rfl, ?_⟩
  decide

/-- C4 amended: every status at or above 500 (600 and beyond included)
classifies as server, and every status below 400 (200 to 399 and codes
below 200 included) classifies as unknown. -/
theorem getType_server_and_unknown (e : APIError) :
    (500 ≤ e.StatusCode → e.GetType = ErrorTypeServer) ∧
    (e.StatusCode < 400 → e.GetType = ErrorTypeUnknown) := by
  constructor
  · intro h
    unfold APIError.GetType
    rw [if_neg (by omega), if_neg (by omega), if_neg (by omega), if_pos h]
  · intro h
    unfold APIError.GetType
    rw [if_neg (by omega), if_neg (by omega), if_neg (by omega), if_neg (by omega)]

/-- Witness for the amended C4 at concrete status codes 502 and 302. -/
theorem getType_server_and_unknown_spot :
    APIError.GetType { StatusCode := 502, ErrType := "", Message := "", Errors := [] } =
      ErrorTypeServer ∧
    APIError.GetType { StatusCode := 302, ErrType := "", Message := "", Errors := [] } =
      ErrorTypeUnknown :=
  ⟨(getType_server_and_unknown _).1 (by decide),
   (getType_server_and_unknown _).2 (by decide)⟩

/-- Concrete APIError from the C6 scenario: status 403 with one sub-error
titled Forbidden with detail "no access". -/
def forbiddenErr : APIError :=
  { StatusCode := 403, ErrType := "", Message := "",
    Errors := [{ ID := "1", Title := "Forbidden", Detail := "no access",
                 Status := "403", Code := "40300" }] }

/-- C6 counterexample: the claim says the message for the 403 scenario is
exactly "Forbidden: no access"; the code prepends the status-code prefix,
producing "API error (status code: 403): Forbidden: no access". -/
theorem apiError_message_has_status_prefix :
    forbiddenErr.Error = "API error (status code: 403): Forbidden: no access" ∧
    forbiddenErr.Error ≠ "Forbidden: no access" := by
  refine ⟨by decide, by decide⟩

/-- C6 amended: with sub-errors present the message is "API error (status
code: N): " followed by the "Title: Detail" entries joined with "; ";
with an empty sub-error list it is "API error (status code: N)"; and a 403
error classifies as authentication. -/
theorem apiError_message_format (e : APIError) :
    (e.Errors ≠ [] → e.Error =
      "API error (status code: " ++ toString e.StatusCode ++ "): " ++
        String.intercalate "; " (e.Errors.map (fun err => err.Title ++ ": " ++ err.Detail))) ∧
    (e.Errors = [] → e.Error = "API error (status code: " ++ toString e.StatusCode ++ ")") ∧
    (e.StatusCode = 403 → e.GetType = ErrorTypeAuthentication) := by
  refine ⟨?_, ?_, ?_⟩
  · intro h
    unfold APIError.Error
    rw [if_neg h]
  · intro h
    unfold APIError.Error
    rw [if_pos h]
  · intro h
    unfold APIError.GetType
    rw [if_pos (Or.inr h)]

/-- Witness for the amended C6 at the 403 scenario error and at an
empty-sub-error 500 error. -/
theorem apiError_message_format_spot :
    forbiddenErr.Error = "API error (status code: 403): Forbidden: no access" ∧
    forbiddenErr.GetType = ErrorTypeAuthentication ∧
    APIError.Error { StatusCode := 500, ErrType := "", Message := "", Errors := [] } =
      "API error (status code: 500)" :=
  ⟨((apiError_message_format forbiddenErr).1 (by decide)).trans (by decide),
   (apiError_message_format forbiddenErr).2.2 rfl,
   ((apiError_message_format _).2.1 rfl).trans (by decide)⟩

/-! Association-list model of Go string-keyed maps (http.Header.Set,
url.Values.Set and plain map assignment all replace the entry for an
existing key and otherwise add a new entry). -/

/-- assocGet returns the value stored under key k, if any (first match). -/
def assocGet {α : Type} (h : List (String × α)) (k : String) : Option α :=
  match h with
  | [] => none
  | kv :: rest => if kv.1 = k then some kv.2 else assocGet rest k

/-- assocSet replaces the entry for key k if one exists and otherwise
appends a new entry, the set-replace semantics shared by http.Header.Set,
url.Values.Set and Go map assignment (on lists whose keys are distinct). -/
def assocSet {α : Type} (h : List (String × α)) (k : String) (v : α) : List (String × α) :=
  match h with
  | [] => [(k, v)]
  | kv :: rest => if kv.1 = k then (k, v) :: rest else kv :: assocSet rest k v

theorem assocGet_assocSet_self {α : Type} (h : List (String × α)) (k : String) (v : α) :
    assocGet (assocSet h k v) k = some v := by
  induction h with
  | nil => simp [assocSet, assocGet]
  | cons kv rest ih =>
    by_cases hk : kv.1 = k <;> simp [assocSet, assocGet, hk, ih]

theorem assocGet_assocSet_ne {α : Type} (h : List (String × α)) (k1 k2 : String) (v : α)
    (hne : k1 ≠ k2) : assocGet (assocSet h k1 v) k2 = assocGet h k2 := by
  induction h with
  | nil => simp [assocSet, assocGet, hne]
  | cons kv rest ih =>
    by_cases hk : kv.1 = k1
    · simp [assocSet, assocGet, hk, hne]
    · simp only [assocSet, if_neg hk, assocGet]
      by_cases hk2 : kv.1 = k2
      · rw [if_pos hk2, if_pos hk2]
      · rw [if_neg hk2, if_neg hk2, ih]

theorem assocGet_foldl_set_of_ne {α : Type} (l : List (String × α)) (h : List (String × α))
    (k : String) (hk : ∀ kv ∈ l, kv.1 ≠ k) :
    assocGet (l.foldl (fun acc kv => assocSet acc kv.1 kv.2) h) k = assocGet h k := by
  induction l generalizing h with
  | nil => rfl
  | cons kv rest ih =>
    rw [List.foldl_cons, ih _ (fun x hx => hk x (List.mem_cons_of_mem _ hx)),
      assocGet_assocSet_ne _ _ _ _ (hk kv (List.mem_cons_self _ _))]

theorem mem_keys_assocSet {α : Type} (h : List (String × α)) (k x : String) (v : α) :
    x ∈ (assocSet h k v).map Prod.fst ↔ x = k ∨ x ∈ h.map Prod.fst := by
  induction h with
  | nil => simp [assocSet]
  | cons kv rest ih =>
    by_cases hk : kv.1 = k
    · subst hk
      simp [assocSet]
    · simp only [assocSet, if_neg hk, List.map_cons, List.mem_cons, ih]
      tauto

theorem keys_nodup_assocSet {α : Type} (h : List (String × α)) (k : String) (v : α)
    (hn : (h.map Prod.fst).Nodup) : ((assocSet h k v).map Prod.fst).Nodup := by
  induction h with
  | nil => simp [assocSet]
  | cons kv rest ih =>
    simp only [List.map_cons, List.nodup_cons] at hn
    by_cases hk : kv.1 = k
    · subst hk
      simpa [assocSet, List.nodup_cons] using hn
    · simp only [assocSet, if_neg hk, List.map_cons, List.nodup_cons]
      refine ⟨?_, ih hn.2⟩
      rw [mem_keys_assocSet]
      rintro (h1 | h2)
      · exact hk h1
      · exact hn.1 h2

/-! HTTP client (client package): the header-construction part of
Client.NewRequest.  The http.Client, logger and network execution are
external; the model keeps the Client fields NewRequest reads and the
exact sequence of Header.Set calls.  Go map iteration order over the
static headers is unspecified, so they are modelled as a list folded in
an arbitrary order. -/

/-- Client mirrors the configuration fields of the Go client struct that
NewRequest reads (the embedded http.Client, logger and log level are
external side-effect machinery). -/
structure Client where
  baseURL : String
  apiVersion : String
  userAgent : String
  headers : List (String × String)
  developerToken : String
  userToken : String
  deriving DecidableEq, Repr

/-- NewRequestHeaders translates the header-setting sequence of
Client.NewRequest in source order: User-Agent, Content-Type, Accept, then
Authorization (when a developer token is configured), then
Music-User-Token (when a user token is configured), then the
caller-supplied static headers. -/
def NewRequestHeaders (c : Client) : List (String × String) :=
  let h0 := assocSet [] "User-Agent" c.userAgent
  let h1 := assocSet h0 "Content-Type" "application/json"
  let h2 := assocSet h1 "Accept" "application/json"
  let h3 := if c.developerToken = "" then h2
            else assocSet h2 "Authorization" ("Bearer " ++ c.developerToken)
  let h4 := if c.userToken = "" then h3
            else assocSet h3 "Music-User-Token" c.userToken
  c.headers.foldl (fun acc kv => assocSet acc kv.1 kv.2) h4

/-- C2 counterexample: the claim says static headers are applied before the
authentication headers, so a static Authorization entry cannot override
the developer token.  In the code the static headers are applied after
the authentication headers, so a client configured with developer token
"devtok" and static header Authorization "custom" builds a request whose
Authorization header is "custom", not "Bearer devtok". -/
theorem newRequest_static_header_overrides_auth :
    assocGet (NewRequestHeaders
      { baseURL := "https://api.music.apple.com", apiVersion := "v1",
        userAgent := "MusicKitKat/0.1.0", headers := [("Authorization", "custom")],
        developerToken := "devtok", userToken := "" }) "Authorization" = some "custom" ∧
    some "custom" ≠ some ("Bearer " ++ "devtok") := by
  refine ⟨by decide, by decide⟩

/-- C2 amended: static headers are applied after the authentication
headers; for every client with a configured developer token whose static
header map contains no Authorization key, the built request's
Authorization header equals "Bearer " followed by the developer token. -/
theorem newRequest_auth_header (c : Client) (h1 : c.developerToken ≠ "")
    (h2 : ∀ kv ∈ c.headers, kv.1 ≠ "Authorization") :
    assocGet (NewRequestHeaders c) "Authorization" =
      some ("Bearer " ++ c.developerToken) := by
  unfold NewRequestHeaders
  rw [assocGet_foldl_set_of_ne _ _ _ h2]
  by_cases hu : c.userToken = ""
  · rw [if_pos hu, if_neg h1, assocGet_assocSet_self]
  · rw [if_neg hu, if_neg h1,
      assocGet_assocSet_ne _ _ _ _ (by decide), assocGet_assocSet_self]

/-- Witness for the amended C2 at a concrete client with one non-auth
static header. -/
theorem newRequest_auth_header_spot :
    assocGet (NewRequestHeaders
      { baseURL := "https://api.music.apple.com", apiVersion := "v1",
        userAgent := "MusicKitKat/0.1.0", headers := [("X-Custom", "1")],
        developerToken := "devtok", userToken := "utok" }) "Authorization" =
      some ("Bearer " ++ "devtok") :=
  newRequest_auth_header _ (by decide) (by decide)

/-! Token cache and user-token manager (auth package).  User tokens are
oauth2.Token values; times are unix seconds (Int), with Expiry = 0
standing for the Go zero time (a token with no expiry set). -/

/-- OAuthToken mirrors the oauth2.Token fields the SDK stores and reads:
AccessToken, RefreshToken, TokenType and Expiry (unix seconds, 0 for the
zero time). -/
structure OAuthToken where
  AccessToken : String
  RefreshToken : String
  TokenType : String
  Expiry : Int
  deriving DecidableEq, Repr

/-- expiryDelta is the 10-second early-expiry margin the oauth2 library
subtracts from Expiry when deciding whether a token is expired. -/
def expiryDelta : Int := 10

/-- OAuthToken.expired models the expired method of the external oauth2
library: a token with the zero Expiry never expires; otherwise the token
counts as expired once Expiry minus the 10-second delta lies strictly
before the current time. -/
def OAuthToken.expired (t : OAuthToken) (now : Int) : Bool :=
  if t.Expiry = 0 then false else decide (t.Expiry - expiryDelta < now)

/-- OAuthToken.Valid models oauth2.Token.Valid: the token is non-nil (the
SDK only stores non-nil tokens), has a non-empty access token and is not
expired. -/
def OAuthToken.Valid (t : OAuthToken) (now : Int) : Bool :=
  decide (t.AccessToken ≠ "") && !(t.expired now)

/-- MemoryTokenCache is the unsynchronized in-memory map from user
identifiers to tokens, modelled as an association list with distinct
keys. -/
abbrev MemoryTokenCache := List (String × OAuthToken)

/-- MemoryTokenCache.Get translates the Go method: map lookup, with the
error "token not found for user <userID>" on a miss. -/
def MemoryTokenCache.Get (c : MemoryTokenCache) (userID : String) : Except String OAuthToken :=
  match assocGet c userID with
  | none => .error ("token not found for user " ++ userID)
  | some t => .ok t

/-- MemoryTokenCache.Save translates the Go method: unconditional map
assignment, which never fails. -/
def MemoryTokenCache.Save (c : MemoryTokenCache) (userID : String) (token : OAuthToken) :
    MemoryTokenCache :=
  assocSet c userID token

/-- C9: Save followed by Get on the same userID returns the record saved;
Save overwrites a previously saved record unconditionally; Get on a
userID not present in the cache fails with the not-found error; and the
cache keeps at most one record per user identifier (Save preserves
distinctness of keys). -/
theorem memoryTokenCache_save_get (c : MemoryTokenCache) (u : String) (t t0 : OAuthToken) :
    ((c.Save u t).Get u = .ok t) ∧
    (((c.Save u t0).Save u t).Get u = .ok t) ∧
    ((∀ kv ∈ c, kv.1 ≠ u) → c.Get u = .error ("token not found for user " ++ u)) ∧
    ((c.map Prod.fst).Nodup → ((c.Save u t).map Prod.fst).Nodup) := by
  refine ⟨?_, ?_, ?_, ?_⟩
  · simp [MemoryTokenCache.Get, MemoryTokenCache.Save, assocGet_assocSet_self]
  · simp [MemoryTokenCache.Get, MemoryTokenCache.Save, assocGet_assocSet_self]
  · intro h
    have hnone : assocGet c u = none := by
      induction c with
      | nil => rfl
      | cons kv rest ih =>
        simp only [assocGet, if_neg (h kv (List.mem_cons_self _ _))]
        exact ih (fun x hx => h x (List.mem_cons_of_mem _ hx))
    simp [MemoryTokenCache.Get, hnone]
  · intro h
    exact keys_nodup_assocSet _ _ _ h

/-- Concrete token used in cache examples. -/
def tokA : OAuthToken :=
  { AccessToken := "accessA", RefreshToken := "refreshA", TokenType := "Bearer", Expiry := 1000 }

/-- Second concrete token used in cache examples. -/
def tokB : OAuthToken :=
  { AccessToken := "accessB", RefreshToken := "refreshB", TokenType := "Bearer", Expiry := 2000 }

/-- Witness for C9 at a concrete cache: save then get round-trips, a
second save wins, and an unseeded lookup reports not-found. -/
theorem memoryTokenCache_save_get_spot :
    (MemoryTokenCache.Get (MemoryTokenCache.Save [] "alice" tokA) "alice" = .ok tokA) ∧
    (MemoryTokenCache.Get
      (MemoryTokenCache.Save (MemoryTokenCache.Save [] "alice" tokB) "alice" tokA) "alice" =
        .ok tokA) ∧
    (MemoryTokenCache.Get [("bob", tokB)] "alice" =
      .error ("token not found for user " ++ "alice")) :=
  ⟨(memoryTokenCache_save_get [] "alice" tokA tokB).1,
   (memoryTokenCache_save_get [] "alice" tokA tokB).2.1,
   (memoryTokenCache_save_get [("bob", tokB)] "alice" tokA tokB).2.2.1 (by decide)⟩

/-- RefreshTokenCall models UserTokenManager.RefreshToken: one call to the
network refresh oracle (the oauth2 token source, external), wrapping a
failure in the "failed to refresh token: " message.  The oracle is a
parameter because the network is external; each invocation counts as one
network call. -/
def RefreshTokenCall (refresh : OAuthToken → Except String OAuthToken) (t : OAuthToken) :
    Except String OAuthToken :=
  match refresh t with
  | .error e => .error ("failed to refresh token: " ++ e)
  | .ok t2 => .ok t2

/-- GetUserToken translates UserTokenManager.GetUserToken over the default
in-memory cache: look the user up (propagating the cache miss error
unchanged), return a Valid token as is, otherwise refresh once and save
the result (MemoryTokenCache.Save never fails, so the save-error branch
of the Go code is unreachable here).  The second component counts the
refresh (network) calls made. -/
def GetUserToken (cache : MemoryTokenCache) (refresh : OAuthToken → Except String OAuthToken)
    (now : Int) (userID : String) :
    Except String (OAuthToken × MemoryTokenCache) × Nat :=
  match MemoryTokenCache.Get cache userID with
  | .error e => (.error e, 0)
  | .ok token =>
    if token.Valid now then (.ok (token, cache), 0)
    else
      match RefreshTokenCall refresh token with
      | .error e => (.error e, 1)
      | .ok newToken => (.ok (newToken, MemoryTokenCache.Save cache userID newToken), 1)

/-- C5 counterexample: the claim says a cached record whose expiry has not
passed is returned with no network call.  The code delegates the check to
oauth2.Token.Valid, which treats a token as expired 10 seconds early: for
a cached record expiring at time 100, a call at time 95 (expiry not yet
passed) still performs one refresh call. -/
theorem getUserToken_refreshes_before_expiry :
    ((95 : Int) < 100) ∧
    (GetUserToken
      [("u", { AccessToken := "a", RefreshToken := "r", TokenType := "Bearer", Expiry := 100 })]
      (fun t => .ok { t with AccessToken := "a2" }) 95 "u").2 = 1 := by
  refine ⟨by decide, rfl⟩

/-- C5 amended: GetUserToken is a cache-through read in which validity is
oauth2.Token.Valid (non-empty access token and, unless no expiry is set,
current time earlier than expiry minus the 10-second early-expiry
margin): a cache miss fails with the cache's not-found error and performs
no refresh; a cached Valid record is returned unchanged with no network
call; a cached non-Valid record triggers exactly one refresh call whose
result is persisted via Save before being returned (and a failing refresh
is reported after that single call). -/
theorem getUserToken_cache_through (cache : MemoryTokenCache)
    (refresh : OAuthToken → Except String OAuthToken) (now : Int) (userID : String) :
    (assocGet cache userID = none →
      GetUserToken cache refresh now userID =
        (.error ("token not found for user " ++ userID), 0)) ∧
    (∀ t, assocGet cache userID = some t → t.Valid now = true →
      GetUserToken cache refresh now userID = (.ok (t, cache), 0)) ∧
    (∀ t t2, assocGet cache userID = some t → t.Valid now = false → refresh t = .ok t2 →
      GetUserToken cache refresh now userID =
        (.ok (t2, MemoryTokenCache.Save cache userID t2), 1)) ∧
    (∀ t e, assocGet cache userID = some t → t.Valid now = false → refresh t = .error e →
      GetUserToken cache refresh now userID =
        (.error ("failed to refresh token: " ++ e), 1)) := by
  refine ⟨?_, ?_, ?_, ?_⟩
  · intro h
    simp [GetUserToken, MemoryTokenCache.Get, h]
  · intro t ht hv
    simp [GetUserToken, MemoryTokenCache.Get, ht, hv]
  · intro t t2 ht hv hr
    simp [GetUserToken, MemoryTokenCache.Get, RefreshTokenCall, ht, hv, hr]
  · intro t e ht hv hr
    simp [GetUserToken, MemoryTokenCache.Get, RefreshTokenCall, ht, hv, hr]

/-- Witness for the amended C5: a miss on the empty cache, a Valid cached
record returned without refresh, and an expired cached record refreshed
exactly once with the result saved. -/
theorem getUserToken_cache_through_spot :
    (GetUserToken [] (fun t => .ok t) 0 "u" =
      (.error ("token not found for user " ++ "u"), 0)) ∧
    (GetUserToken [("u", tokA)] (fun t => .ok t) 0 "u" = (.ok (tokA, [("u", tokA)]), 0)) ∧
    (GetUserToken [("u", tokA)] (fun _ => .ok tokB) 5000 "u" =
      (.ok (tokB, MemoryTokenCache.Save [("u", tokA)] "u" tokB), 1)) :=
  ⟨(getUserToken_cache_through [] (fun t => .ok t) 0 "u").1 rfl,
   (getUserToken_cache_through [("u", tokA)] (fun t => .ok t) 0 "u").2.1 tokA rfl (by decide),
   (getUserToken_cache_through [("u", tokA)] (fun _ => .ok tokB) 5000 "u").2.2.1 tokA tokB rfl
     (by decide) rfl⟩

/-! Developer-token issuer (auth package).  Key parsing and ES256 signing
live in the external golang-jwt library; ParseUnverified recovers the
header and claims of a token the issuer produced without checking the
signature.  A signed token is therefore modelled as the key-id header
plus the claims it embeds, with the outcomes of the external key parse
and signing step as boolean parameters. -/

/-- DeveloperTokenConfig mirrors the Go struct, with ExpiresAt as unix
seconds; the PrivateKey bytes are summarized by whether the external
parser accepts them (the keyParses parameter of the constructors). -/
structure DeveloperTokenConfig where
  TeamID : String
  KeyID : String
  MusicID : String
  ExpiresAt : Int
  deriving DecidableEq, Repr

/-- TokenClaims is the claims map the issuer builds: iss, iat, exp, sub. -/
structure TokenClaims where
  iss : String
  iat : Int
  exp : Int
  sub : String
  deriving DecidableEq, Repr

/-- DeveloperToken stands for the signed JWT string: the kid header entry
and the embedded claims, exactly what ParseUnverified recovers from the
string the issuer produced. -/
structure DeveloperToken where
  kid : String
  claims : TokenClaims
  deriving DecidableEq, Repr

/-- NewDeveloperTokenFromConfig translates the Go constructor: fail if the
private key does not parse, build claims with iat = now and
exp = config.ExpiresAt, set the kid header and sign (failing if the
external signing step fails).  No validation relates ExpiresAt to now. -/
def NewDeveloperTokenFromConfig (config : DeveloperTokenConfig) (now : Int)
    (keyParses signingSucceeds : Bool) : Option DeveloperToken :=
  if keyParses then
    if signingSucceeds then
      some { kid := config.KeyID,
             claims := { iss := config.TeamID, iat := now,
                         exp := config.ExpiresAt, sub := config.MusicID } }
    else none
  else none

/-- NewDeveloperTokenWithExpiry translates the Go convenience wrapper that
packs its arguments into a DeveloperTokenConfig. -/
def NewDeveloperTokenWithExpiry (teamID keyID musicID : String) (expiresAt now : Int)
    (keyParses signingSucceeds : Bool) : Option DeveloperToken :=
  NewDeveloperTokenFromConfig
    { TeamID := teamID, KeyID := keyID, MusicID := musicID, ExpiresAt := expiresAt }
    now keyParses signingSucceeds

/-- DefaultTokenExpirationSeconds is the Go DefaultTokenExpiration constant
(6 times 30 days) in seconds. -/
def DefaultTokenExpirationSeconds : Int := 6 * 30 * 24 * 3600

/-- NewDeveloperToken translates the default-expiry constructor: it reads
the clock (now0), adds the default expiration, and delegates; the inner
constructor reads the clock again (now) for the iat claim. -/
def NewDeveloperToken (teamID keyID musicID : String) (now0 now : Int)
    (keyParses signingSucceeds : Bool) : Option DeveloperToken :=
  NewDeveloperTokenWithExpiry teamID keyID musicID (now0 + DefaultTokenExpirationSeconds) now
    keyParses signingSucceeds

/-- DeveloperToken.IsExpired translates the Go method at a given clock
reading: ParseUnverified recovers the claims of a token the issuer
produced (always structurally valid with a numeric exp here), and the
token counts as expired when the current time strictly exceeds exp. -/
def DeveloperToken.IsExpired (tok : DeveloperToken) (now : Int) : Bool :=
  decide (now > tok.claims.exp)

/-- C7 counterexample: the claim says every successfully issued token has
exp strictly greater than iat.  The constructor performs no validation of
the caller-supplied expiry: at clock reading 100 with ExpiresAt 0 it
succeeds and embeds exp = 0, iat = 100, and 100 < 0 is false. -/
theorem devToken_expiry_not_after_iat :
    NewDeveloperTokenFromConfig
        { TeamID := "T1", KeyID := "K1", MusicID := "M1", ExpiresAt := 0 } 100 true true =
      some { kid := "K1", claims := { iss := "T1", iat := 100, exp := 0, sub := "M1" } } ∧
    ¬ ((100 : Int) < 0) := by
  refine ⟨rfl, by decide⟩

/-- C7 amended: whenever the issuer succeeds and the caller-supplied
expiry lies strictly after the clock reading used for iat, the embedded
exp claim is strictly greater than the iat claim; the code itself never
rejects an expiry at or before now. -/
theorem devToken_expiry_after_iat (config : DeveloperTokenConfig) (now : Int)
    (kp ss : Bool) (tok : DeveloperToken)
    (hmade : NewDeveloperTokenFromConfig config now kp ss = some tok)
    (hfuture : now < config.ExpiresAt) :
    tok.claims.iat < tok.claims.exp := by
  unfold NewDeveloperTokenFromConfig at hmade
  cases kp with
  | false => exact absurd hmade (by simp)
  | true =>
    cases ss with
    | false => exact absurd hmade (by simp)
    | true =>
      simp only [if_pos, Option.some.injEq] at hmade
      rw [← hmade]
      exact hfuture

/-- Witness for the amended C7 at a concrete configuration with expiry 200
and clock reading 100. -/
theorem devToken_expiry_after_iat_spot :
    TokenClaims.iat { iss := "T1", iat := 100, exp := 200, sub := "M1" } <
      TokenClaims.exp { iss := "T1", iat := 100, exp := 200, sub := "M1" } :=
  devToken_expiry_after_iat
    { TeamID := "T1", KeyID := "K1", MusicID := "M1", ExpiresAt := 200 } 100 true true
    { kid := "K1", claims := { iss := "T1", iat := 100, exp := 200, sub := "M1" } }
    rfl (by decide)

/-- C8: a token issued with expiry ten seconds after the issuing clock
reading is not expired when IsExpired runs immediately (same clock
reading), and is expired at every clock reading strictly past the ten
seconds; the check reads the claims without signature verification. -/
theorem isExpired_ten_second_token (teamID keyID musicID : String) (now : Int)
    (kp ss : Bool) (tok : DeveloperToken)
    (hmade : NewDeveloperTokenWithExpiry teamID keyID musicID (now + 10) now kp ss = some tok) :
    tok.IsExpired now = false ∧ ∀ t, now + 10 < t → tok.IsExpired t = true := by
  unfold NewDeveloperTokenWithExpiry NewDeveloperTokenFromConfig at hmade
  cases kp with
  | false => exact absurd hmade (by simp)
  | true =>
    cases ss with
    | false => exact absurd hmade (by simp)
    | true =>
      simp only [if_pos, Option.some.injEq] at hmade
      rw [← hmade]
      constructor
      · simp [DeveloperToken.IsExpired]
      · intro t ht
        simp [DeveloperToken.IsExpired]
        omega

/-- Witness for C8 at clock reading 0: the token expiring at 10 is not
expired at time 0 and is expired at time 11. -/
theorem isExpired_ten_second_token_spot :
    DeveloperToken.IsExpired
        { kid := "K1", claims := { iss := "T1", iat := 0, exp := 10, sub := "M1" } } 0 = false ∧
    DeveloperToken.IsExpired
        { kid := "K1", claims := { iss := "T1", iat := 0, exp := 10, sub := "M1" } } 11 = true :=
  ⟨(isExpired_ten_second_token "T1" "K1" "M1" 0 true true _ rfl).1,
   (isExpired_ten_second_token "T1" "K1" "M1" 0 true true _ rfl).2 11 (by decide)⟩

/-! Search service (services package).  The network call and the JSON
decode are external; the model returns the request path the service
builds (the path before query-string encoding, paired with the query
parameters as url.Values entries) together with the service state after
the call, since the methods use a pointer receiver and assignments to the
storefront field persist. -/

/-- SearchOptions mirrors the option fields Search reads from the models
package: Limit, Offset, Storefront, LanguageTag, Include, Exclude,
Extend. -/
structure SearchOptions where
  Limit : Int
  Offset : Int
  Storefront : String
  LanguageTag : String
  Include : List String
  Exclude : List String
  Extend : List String
  deriving DecidableEq, Repr

/-- SearchService mirrors the Go struct: the embedded BaseService (its
client pointer) and the storefront field. -/
structure SearchService where
  client : Client
  storefront : String
  deriving DecidableEq, Repr

/-- NewSearchService translates the Go constructor, with "us" as the
default storefront. -/
def NewSearchService (c : Client) : SearchService :=
  { client := c, storefront := "us" }

/-- SetStorefront translates the Go setter. -/
def SearchService.SetStorefront (s : SearchService) (storefront : String) : SearchService :=
  { s with storefront := storefront }

/-- commaSeparated translates the Go helper (strings.Join with a comma). -/
def commaSeparated (items : List String) : String :=
  String.intercalate "," items

/-- SearchService.Search translates the Go method in source order: reject
an empty term (state unchanged), set the term and types query
parameters, then walk the options, assigning the service's storefront
field when the Storefront option is non-empty, and build the catalog
search path from the (possibly just-updated) storefront field.  The
result pairs the pre-encoding path and query parameters with the service
state after the call. -/
def SearchService.Search (s : SearchService) (term : String) (types : List String)
    (options : Option SearchOptions) :
    Except String (String × List (String × String)) × SearchService :=
  if term = "" then (.error "search term is required", s)
  else
    let qp0 := assocSet [] "term" term
    let qp1 := if 0 < types.length then assocSet qp0 "types" (commaSeparated types) else qp0
    match options with
    | none => (.ok ("catalog/" ++ s.storefront ++ "/search", qp1), s)
    | some o =>
      let qp2 := if 0 < o.Limit then assocSet qp1 "limit" (toString o.Limit) else qp1
      let qp3 := if 0 < o.Offset then assocSet qp2 "offset" (toString o.Offset) else qp2
      let s1 := if o.Storefront = "" then s else { s with storefront := o.Storefront }
      let qp4 := if o.LanguageTag = "" then qp3 else assocSet qp3 "l" o.LanguageTag
      let qp5 := if 0 < o.Include.length then assocSet qp4 "include" (commaSeparated o.Include)
                 else qp4
      let qp6 := if 0 < o.Exclude.length then assocSet qp5 "exclude" (commaSeparated o.Exclude)
                 else qp5
      let qp7 := if 0 < o.Extend.length then assocSet qp6 "extend" (commaSeparated o.Extend)
                 else qp6
      (.ok ("catalog/" ++ s1.storefront ++ "/search", qp7), s1)

/-- SearchService.SearchHints translates the Go method: reject an empty
term, otherwise build the hints path from the current storefront field;
the state is never changed. -/
def SearchService.SearchHints (s : SearchService) (term : String) :
    Except String (String × List (String × String)) × SearchService :=
  if term = "" then (.error "search term is required", s)
  else (.ok ("catalog/" ++ s.storefront ++ "/search/hints", assocSet [] "term" term), s)

/-- C10: a Search call whose options carry a non-empty Storefront uses that
storefront in its request path and permanently overwrites the service's
storefront field (no other field changes); every subsequent Search
without options and every subsequent SearchHints on the resulting state
also uses the supplied storefront instead of the constructor default
"us". -/
theorem search_storefront_mutation (s : SearchService) (term term2 term3 : String)
    (types types2 : List String) (o : SearchOptions)
    (hterm : term ≠ "") (hsf : o.Storefront ≠ "") (hterm2 : term2 ≠ "") (hterm3 : term3 ≠ "") :
    (∃ qp, (s.Search term types (some o)).1 =
      .ok ("catalog/" ++ o.Storefront ++ "/search", qp)) ∧
    ((s.Search term types (some o)).2 = { s with storefront := o.Storefront }) ∧
    (∃ qp, (((s.Search term types (some o)).2).Search term2 types2 none).1 =
      .ok ("catalog/" ++ o.Storefront ++ "/search", qp)) ∧
    ((((s.Search term types (some o)).2).Search term2 types2 none).2 =
      (s.Search term types (some o)).2) ∧
    (∃ qp, (((s.Search term types (some o)).2).SearchHints term3).1 =
      .ok ("catalog/" ++ o.Storefront ++ "/search/hints", qp)) ∧
    (∀ c, (NewSearchService c).storefront = "us") := by
  have hstate : (s.Search term types (some o)).2 = { s with storefront := o.Storefront } := by
    simp [SearchService.Search, if_neg hterm, if_neg hsf]
  refine ⟨?_, hstate, ?_, ?_, ?_, fun c => rfl⟩
  · simp [SearchService.Search, if_neg hterm, if_neg hsf]
  · rw [hstate]
    simp [SearchService.Search, if_neg hterm2]
  · rw [hstate]
    simp [SearchService.Search, if_neg hterm2]
  · rw [hstate]
    simp [SearchService.SearchHints, if_neg hterm3]

/-- Concrete client used in the search witness. -/
def witnessClient : Client :=
  { baseURL := "https://api.music.apple.com", apiVersion := "v1",
    userAgent := "MusicKitKat/0.1.0", headers := [], developerToken := "d", userToken := "" }

/-- Witness for C10: searching with the Storefront option "jp" on the
default service rewrites the storefront and the request paths of the
following calls. -/
theorem search_storefront_mutation_spot :
    (∃ qp, ((NewSearchService witnessClient).Search "beatles" [] (some
      { Limit := 0, Offset := 0, Storefront := "jp", LanguageTag := "",
        Include := [], Exclude := [], Extend := [] })).1 =
          .ok ("catalog/" ++ "jp" ++ "/search", qp)) ∧
    (((NewSearchService witnessClient).Search "beatles" [] (some
      { Limit := 0, Offset := 0, Storefront := "jp", LanguageTag := "",
        Include := [], Exclude := [], Extend := [] })).2 =
      { NewSearchService witnessClient with storefront := "jp" }) :=
  ⟨(search_storefront_mutation (NewSearchService witnessClient) "beatles" "x" "y" [] []
      { Limit := 0, Offset := 0, Storefront := "jp", LanguageTag := "",
        Include := [], Exclude := [], Extend := [] }
      (by decide) (by decide) (by decide) (by decide)).1,
   (search_storefront_mutation (NewSearchService witnessClient) "beatles" "x" "y" [] []
      { Limit := 0, Offset := 0, Storefront := "jp", LanguageTag := "",
        Include := [], Exclude := [], Extend := [] }
      (by decide) (by decide) (by decide) (by decide)).2.1⟩

end MusicKitKat
